import Mathlib

/-!
Shallow embedding of `groq_demo.py` (RAG_Powered_Assistant).

The script is a single Streamlit page function `main`.  We embed one render
pass of the page as a pure function from an environment — the outcome of the
secrets lookup, the behaviour of the external `GroqLLM` client class, and the
current widget states (prompt text, button pressed, slider positions) — to
the list of rendered UI items together with the log of calls made to the
client library.  Python exceptions are modelled with `Except String` on the
operations that may raise; the top level `try/except` of `main` becomes a
total catch wrapper, so by construction no exception escapes.

Streamlit itself is an external collaborator: its widgets are modelled by
their documented semantics (a slider returns its default before interaction
and otherwise a value clamped to its bounds; a button returns whether it was
pressed this render; `st.secrets.get` returns `none` when the name is
absent and may itself raise when the secrets store is broken).
-/

namespace GroqDemo

/-- The structured response returned by the generate operation of the client
(`response.content`, `response.model`, `response.usage`, `response.metadata`
in `groq_demo.py`).  Usage and metadata are free-form mappings, embedded as
association lists. -/
structure LLMResponse where
  content : String
  model : String
  usage : List (String × Nat)
  metadata : List (String × String)
deriving DecidableEq, Repr

/-- Behaviour of one constructed `GroqLLM` handle: the two methods the demo
uses, `is_available()` and `generate(prompt)`, each of which may raise. -/
structure Client where
  isAvailable : Except String Bool
  generate : String → Except String LLMResponse

/-- One call into the client library: constructing `GroqLLM(api_key=...)`,
calling `is_available()`, or calling `generate(prompt)`. -/
inductive ClientCall where
  | construct (apiKey : String)
  | isAvailable
  | generate (prompt : String)
deriving DecidableEq, Repr

/-- One rendered Streamlit element, in page order. -/
inductive RenderItem where
  | title (text : String)
  | markdown (text : String)
  | subheader (text : String)
  | info (text : String)
  | error (text : String)
  | success (text : String)
  | warning (text : String)
  | write (text : String)
  | textArea (label : String) (defaultValue : String)
  | button (label : String)
  | slider (label : String) (lo hi dflt value : Int)
  | sliderInt (label : String) (lo hi dflt value : Int)
  | spinner (text : String)
  | expanderJson (model : String) (usage : List (String × Nat))
      (metadata : List (String × String))
  | code (content : String) (language : String)
deriving DecidableEq, Repr

/-- Environment of one render pass: the result of the `st.secrets.get`
lookup (which may raise, return `none` when absent, or return the stored
string), the behaviour of the external `GroqLLM` constructor, and the
current widget states.  A slider choice of `none` means the user never
touched the slider, so it reports its default. -/
structure Env where
  getSecret : Except String (Option String)
  constructClient : String → Except String Client
  userPrompt : String
  buttonPressed : Bool
  temperatureChoice : Option Int
  maxTokensChoice : Option Int

/-- Value reported by a bounded numeric slider: the default before any
interaction, otherwise the current choice clamped into `[lo, hi]`
(Streamlit widget semantics; the widget never reports out of bounds). -/
def sliderValue (lo hi dflt : Int) (choice : Option Int) : Int :=
  match choice with
  | none => dflt
  | some c => max lo (min hi c)

/-- Value of the `st.slider("Temperature", 0.0, 1.0, 0.3, 0.1)` control.
The slider has step 0.1, so every value it can report is a whole multiple
of 0.1; we represent values exactly in tenths (0.0 ↦ 0, 0.3 ↦ 3, 1.0 ↦ 10),
avoiding floating point. -/
def temperatureValue (choice : Option Int) : Int :=
  sliderValue 0 10 3 choice

/-- Value of the `st.slider("Max Tokens", 50, 1000, 500, 50)` control. -/
def maxTokensValue (choice : Option Int) : Int :=
  sliderValue 50 1000 500 choice

/-- The whitespace characters stripped by the Python `str.strip()` method
(ASCII subset; exotic Unicode space characters are out of scope). -/
def isPyWhitespace (c : Char) : Bool :=
  c = ' ' || c = '\t' || c = '\n' || c = '\r' || c = '\x0b' || c = '\x0c'

/-- The Python `str.strip()` method with no argument: remove leading and
trailing whitespace. -/
def pyStrip (s : String) : String :=
  String.mk (((s.data.dropWhile isPyWhitespace).reverse.dropWhile
    isPyWhitespace).reverse)

/-- Text of the `st.info` block about secure key management. -/
def secureInfoText : String :=
  "This demo shows how the Groq API key is securely managed:\n\n1. **Local Development**: API key stored in `.streamlit/secrets.toml` (excluded from Git)\n2. **Production**: API key set in Streamlit Cloud secrets (not exposed in code)\n3. **Zero GitHub Exposure**: Keys never committed to version control"

/-- Setup instructions shown when the API key is missing. -/
def setupInstructionsText : String :=
  "**Setup Instructions:**\n1. Create `.streamlit/secrets.toml` in your project root\n2. Add: `GROQ_API_KEY = \"your_actual_key_here\"`\n3. Get your key from: https://console.groq.com/keys"

/-- Default contents of the prompt text area. -/
def defaultPromptText : String :=
  "Hello from Streamlit! Please explain what you are in one sentence."

/-- The troubleshooting list rendered by the top level exception handler. -/
def commonIssuesText : String :=
  "**Common Issues:**\n1. Missing API key in secrets\n2. Invalid API key format\n3. Network connectivity issues\n4. Groq package not installed (`pip install groq`)"

/-- The code sample shown inside the implementation expander. -/
def implCodeText : String :=
  "# In streamlit_app.py\nimport streamlit as st\nfrom your_module import GroqLLM\n\n# Create LLM using key from Streamlit secrets\nllm = GroqLLM(api_key=st.secrets[\"GROQ_API_KEY\"])\n\n# Generate response\nresponse = llm.generate(\"Hello from Streamlit!\")\nst.write(response.content)"

/-- The secrets file sample shown inside the implementation expander. -/
def secretsTomlText : String :=
  "GROQ_API_KEY = \"gsk_xxx_your_key_here\""

/-- Elements rendered before the `try` block: title, separator, subheader
and the informational panel (`groq_demo.py` lines 16–27). -/
def preambleItems : List RenderItem :=
  [RenderItem.title "🚀 Groq LLM Integration Demo",
   RenderItem.markdown "---",
   RenderItem.subheader "🔐 Secure API Key Management",
   RenderItem.info secureInfoText]

/-- Elements of the settings column (`col2`) and the implementation-code
section (`groq_demo.py` lines 85–113); rendered whenever the success path
reaches past the `col1` block without raising. -/
def settingsAndCode (env : Env) : List RenderItem :=
  [RenderItem.subheader "⚙️ Settings",
   RenderItem.slider "Temperature" 0 10 3
     (temperatureValue env.temperatureChoice),
   RenderItem.sliderInt "Max Tokens" 50 1000 500
     (maxTokensValue env.maxTokensChoice),
   RenderItem.subheader "📝 Implementation Code",
   RenderItem.code implCodeText "python",
   RenderItem.markdown "**Secrets setup (.streamlit/secrets.toml):**",
   RenderItem.code secretsTomlText "toml",
   RenderItem.markdown "**Gitignore entry:**",
   RenderItem.code ".streamlit/secrets.toml" "text"]

/-- Elements rendered at the start of the success path: success banner, demo
subheader, the prompt text area and the trigger button
(`groq_demo.py` lines 51–66). -/
def successPathItems : List RenderItem :=
  [RenderItem.success "✅ Groq LLM Successfully Connected!",
   RenderItem.subheader "💬 Try the LLM",
   RenderItem.textArea "Enter your prompt:" defaultPromptText,
   RenderItem.button "🎯 Generate Response"]

/-- Outcome of the `try` block body: elements rendered so far, client calls
issued so far, and the exception (if any) propagating to the handler. -/
structure TryResult where
  items : List RenderItem
  calls : List ClientCall
  exn : Option String

/-- The body of the `try` block of `main` (`groq_demo.py` lines 30–113),
translated statement by statement.  `st.secrets.get("GROQ_API_KEY")` yields
`env.getSecret`; Python truthiness of `not api_key` makes both an absent key
and an empty string take the missing-key branch; `GroqLLM(api_key=api_key)`
is `env.constructClient`; the button press and the text area contents come
from the environment.  An exception at any point stops the block, keeping
the elements and calls already made. -/
def tryBody (env : Env) : TryResult :=
  match env.getSecret with
  | Except.error e => { items := [], calls := [], exn := some e }
  | Except.ok keyOpt =>
    let api_key := keyOpt.getD ""
    if api_key = "" then
      { items := [RenderItem.error "❌ GROQ_API_KEY not found in Streamlit secrets",
                  RenderItem.markdown setupInstructionsText],
        calls := [], exn := none }
    else
      match env.constructClient api_key with
      | Except.error e =>
        { items := [], calls := [ClientCall.construct api_key], exn := some e }
      | Except.ok llm =>
        match llm.isAvailable with
        | Except.error e =>
          { items := [],
            calls := [ClientCall.construct api_key, ClientCall.isAvailable],
            exn := some e }
        | Except.ok avail =>
          if avail = false then
            { items := [RenderItem.error "❌ Groq LLM is not available"],
              calls := [ClientCall.construct api_key, ClientCall.isAvailable],
              exn := none }
          else
            if env.buttonPressed then
              if pyStrip env.userPrompt = "" then
                { items := successPathItems
                    ++ [RenderItem.warning "Please enter a prompt first!"]
                    ++ settingsAndCode env,
                  calls := [ClientCall.construct api_key, ClientCall.isAvailable],
                  exn := none }
              else
                match llm.generate env.userPrompt with
                | Except.error e =>
                  { items := successPathItems
                      ++ [RenderItem.spinner "Generating response..."],
                    calls := [ClientCall.construct api_key, ClientCall.isAvailable,
                              ClientCall.generate env.userPrompt],
                    exn := some e }
                | Except.ok resp =>
                  { items := successPathItems
                      ++ [RenderItem.spinner "Generating response...",
                          RenderItem.subheader "🤖 Response",
                          RenderItem.write resp.content,
                          RenderItem.expanderJson resp.model resp.usage resp.metadata]
                      ++ settingsAndCode env,
                    calls := [ClientCall.construct api_key, ClientCall.isAvailable,
                              ClientCall.generate env.userPrompt],
                    exn := none }
            else
              { items := successPathItems ++ settingsAndCode env,
                calls := [ClientCall.construct api_key, ClientCall.isAvailable],
                exn := none }

/-- One full render pass of `main` (`groq_demo.py` lines 15–123): the
preamble, then the `try` body; if the body raised, the generic error message
with the troubleshooting list is appended (lines 115–123).  Returns the
rendered elements and the log of client calls.  Being a total function into
a plain pair, no exception escapes. -/
def main (env : Env) : List RenderItem × List ClientCall :=
  let t := tryBody env
  match t.exn with
  | none => (preambleItems ++ t.items, t.calls)
  | some e =>
    (preambleItems ++ t.items
       ++ [RenderItem.error ("❌ Error initializing Groq LLM: " ++ e),
           RenderItem.markdown commonIssuesText],
     t.calls)

/-- A stub client as in the testable-properties section of the spec:
available, and `generate` answers "Hello" with model "m1", usage
`tokens: 5` and empty metadata. -/
def okClient : Client :=
  { isAvailable := Except.ok true,
    generate := fun _ =>
      Except.ok { content := "Hello", model := "m1",
                  usage := [("tokens", 5)], metadata := [] } }

/-- A concrete environment: key present, client available, prompt "Hi",
button pressed, sliders untouched. -/
def stubEnv : Env :=
  { getSecret := Except.ok (some "gsk_test_key"),
    constructClient := fun _ => Except.ok okClient,
    userPrompt := "Hi",
    buttonPressed := true,
    temperatureChoice := none,
    maxTokensChoice := none }

/-- A stub client whose availability probe reports false. -/
def unavailClient : Client :=
  { isAvailable := Except.ok false,
    generate := fun _ => Except.error "not available" }

/-- The temperature slider value (in tenths) always lies in the widget
bounds 0–10, i.e. 0.0–1.0. -/
theorem temperatureValue_bounds (c : Option Int) :
    0 ≤ temperatureValue c ∧ temperatureValue c ≤ 10 := by
  cases c with
  | none => exact ⟨by decide, by decide⟩
  | some x =>
    refine ⟨le_max_left _ _, max_le (by decide) (min_le_left _ _)⟩

/-- The max-tokens slider value always lies in the widget bounds 50–1000. -/
theorem maxTokensValue_bounds (c : Option Int) :
    50 ≤ maxTokensValue c ∧ maxTokensValue c ≤ 1000 := by
  cases c with
  | none => exact ⟨by decide, by decide⟩
  | some x =>
    refine ⟨le_max_left _ _, max_le (by decide) (min_le_left _ _)⟩

/-- The log of client calls of a render pass does not depend on the slider
positions: the slider readings only affect the rendered elements. -/
theorem calls_ignore_slider_choices (env : Env) (t m : Option Int) :
    (main { env with temperatureChoice := t, maxTokensChoice := m }).2
      = (main env).2 := by
  cases hsec : env.getSecret with
  | error e => simp [main, tryBody, hsec]
  | ok keyOpt =>
    by_cases hkey : keyOpt.getD "" = ""
    · simp [main, tryBody, hsec, hkey]
    · cases hc : env.constructClient (keyOpt.getD "") with
      | error e => simp [main, tryBody, hsec, hkey, hc]
      | ok llm =>
        cases ha : llm.isAvailable with
        | error e => simp [main, tryBody, hsec, hkey, hc, ha]
        | ok avail =>
          cases avail with
          | false => simp [main, tryBody, hsec, hkey, hc, ha]
          | true =>
            cases hbtn : env.buttonPressed with
            | false => simp [main, tryBody, hsec, hkey, hc, ha, hbtn]
            | true =>
              by_cases hp : pyStrip env.userPrompt = ""
              · simp [main, tryBody, hsec, hkey, hc, ha, hbtn, hp]
              · cases hg : llm.generate env.userPrompt with
                | error e =>
                  simp [main, tryBody, hsec, hkey, hc, ha, hbtn, hp, hg]
                | ok r =>
                  simp [main, tryBody, hsec, hkey, hc, ha, hbtn, hp, hg]

/-- The only temperature slider element a render pass can contain is the one
of the settings column, carrying bounds 0–10 (tenths), default 3 tenths and
the clamped current value. -/
theorem slider_mem_main_eq (env : Env) (lab : String) (lo hi d v : Int)
    (h : RenderItem.slider lab lo hi d v ∈ (main env).1) :
    lab = "Temperature" ∧ lo = 0 ∧ hi = 10 ∧ d = 3 ∧
      v = temperatureValue env.temperatureChoice := by
  cases hsec : env.getSecret with
  | error e => simp [main, tryBody, hsec, preambleItems] at h
  | ok keyOpt =>
    by_cases hkey : keyOpt.getD "" = ""
    · simp [main, tryBody, hsec, hkey, preambleItems] at h
    · cases hc : env.constructClient (keyOpt.getD "") with
      | error e => simp [main, tryBody, hsec, hkey, hc, preambleItems] at h
      | ok llm =>
        cases ha : llm.isAvailable with
        | error e => simp [main, tryBody, hsec, hkey, hc, ha, preambleItems] at h
        | ok avail =>
          cases avail with
          | false => simp [main, tryBody, hsec, hkey, hc, ha, preambleItems] at h
          | true =>
            cases hbtn : env.buttonPressed with
            | false =>
              simp [main, tryBody, hsec, hkey, hc, ha, hbtn, preambleItems,
                successPathItems, settingsAndCode] at h
              exact h
            | true =>
              by_cases hp : pyStrip env.userPrompt = ""
              · simp [main, tryBody, hsec, hkey, hc, ha, hbtn, hp, preambleItems,
                  successPathItems, settingsAndCode] at h
                exact h
              · cases hg : llm.generate env.userPrompt with
                | error e =>
                  simp [main, tryBody, hsec, hkey, hc, ha, hbtn, hp, hg,
                    preambleItems, successPathItems, settingsAndCode] at h
                | ok r =>
                  simp [main, tryBody, hsec, hkey, hc, ha, hbtn, hp, hg,
                    preambleItems, successPathItems, settingsAndCode] at h
                  exact h

/-- The only max-tokens slider element a render pass can contain is the one
of the settings column, carrying bounds 50–1000, default 500 and the clamped
current value. -/
theorem sliderInt_mem_main_eq (env : Env) (lab : String) (lo hi d v : Int)
    (h : RenderItem.sliderInt lab lo hi d v ∈ (main env).1) :
    lab = "Max Tokens" ∧ lo = 50 ∧ hi = 1000 ∧ d = 500 ∧
      v = maxTokensValue env.maxTokensChoice := by
  cases hsec : env.getSecret with
  | error e => simp [main, tryBody, hsec, preambleItems] at h
  | ok keyOpt =>
    by_cases hkey : keyOpt.getD "" = ""
    · simp [main, tryBody, hsec, hkey, preambleItems] at h
    · cases hc : env.constructClient (keyOpt.getD "") with
      | error e => simp [main, tryBody, hsec, hkey, hc, preambleItems] at h
      | ok llm =>
        cases ha : llm.isAvailable with
        | error e => simp [main, tryBody, hsec, hkey, hc, ha, preambleItems] at h
        | ok avail =>
          cases avail with
          | false => simp [main, tryBody, hsec, hkey, hc, ha, preambleItems] at h
          | true =>
            cases hbtn : env.buttonPressed with
            | false =>
              simp [main, tryBody, hsec, hkey, hc, ha, hbtn, preambleItems,
                successPathItems, settingsAndCode] at h
              exact h
            | true =>
              by_cases hp : pyStrip env.userPrompt = ""
              · simp [main, tryBody, hsec, hkey, hc, ha, hbtn, hp, preambleItems,
                  successPathItems, settingsAndCode] at h
                exact h
              · cases hg : llm.generate env.userPrompt with
                | error e =>
                  simp [main, tryBody, hsec, hkey, hc, ha, hbtn, hp, hg,
                    preambleItems, successPathItems, settingsAndCode] at h
                | ok r =>
                  simp [main, tryBody, hsec, hkey, hc, ha, hbtn, hp, hg,
                    preambleItems, successPathItems, settingsAndCode] at h
                  exact h

/-- Claim C1: for every prompt that is empty or whitespace-only after
trimming, pressing the Generate Response trigger displays the warning and
never invokes the generate operation of the client. -/
theorem blank_prompt_warns_no_generate (env : Env) (k : String) (llm : Client)
    (hk : env.getSecret = Except.ok (some k)) (hne : k ≠ "")
    (hc : env.constructClient k = Except.ok llm)
    (ha : llm.isAvailable = Except.ok true)
    (hbtn : env.buttonPressed = true)
    (hp : pyStrip env.userPrompt = "") :
    RenderItem.warning "Please enter a prompt first!" ∈ (main env).1 ∧
    ∀ p, ClientCall.generate p ∉ (main env).2 := by
  simp [main, tryBody, hk, hc, ha, hbtn, hp, hne, preambleItems,
    successPathItems, settingsAndCode]

/-- Witness for claim C1: the whitespace-only prompt "   " with the button
pressed yields the warning and no generate call. -/
theorem blank_prompt_warns_no_generate_witness :
    RenderItem.warning "Please enter a prompt first!"
      ∈ (main { stubEnv with userPrompt := "   " }).1 ∧
    ∀ p, ClientCall.generate p ∉ (main { stubEnv with userPrompt := "   " }).2 :=
  blank_prompt_warns_no_generate { stubEnv with userPrompt := "   " }
    "gsk_test_key" okClient rfl (by decide) rfl rfl rfl (by decide)

/-- Claim C2: for every render in which the API key is absent or empty, the
page displays the error with setup instructions and terminates the render
pass; the render is exactly the preamble plus those two elements, and no
client call — in particular no client construction — occurs. -/
theorem missing_key_no_client (env : Env)
    (hk : env.getSecret = Except.ok none ∨ env.getSecret = Except.ok (some "")) :
    (main env).1 = preambleItems ++
      [RenderItem.error "❌ GROQ_API_KEY not found in Streamlit secrets",
       RenderItem.markdown setupInstructionsText] ∧
    (main env).2 = [] := by
  rcases hk with hk | hk <;> simp [main, tryBody, hk]

/-- Witness for claim C2: an environment whose secrets lookup finds no key
renders the missing-key error and issues no client call. -/
theorem missing_key_no_client_witness :
    (main { stubEnv with getSecret := Except.ok none }).1 = preambleItems
      ++ [RenderItem.error "❌ GROQ_API_KEY not found in Streamlit secrets",
          RenderItem.markdown setupInstructionsText] ∧
    (main { stubEnv with getSecret := Except.ok none }).2 = [] :=
  missing_key_no_client { stubEnv with getSecret := Except.ok none } (Or.inl rfl)

/-- Claim C3: every exception raised during key retrieval, client
construction, the availability check or generation is caught at the top
level of `main`, which appends the generic error message and the fixed
troubleshooting list to what was already rendered; `main` being a total
function into a plain pair, no exception escapes, and every render pass —
in particular any subsequent attempt — still produces the page (its output
always extends the preamble). -/
theorem exceptions_caught_top_level (env : Env) (e : String)
    (h : env.getSecret = Except.error e
      ∨ (∃ k, env.getSecret = Except.ok (some k) ∧ k ≠ "" ∧
          env.constructClient k = Except.error e)
      ∨ (∃ k llm, env.getSecret = Except.ok (some k) ∧ k ≠ "" ∧
          env.constructClient k = Except.ok llm ∧
          llm.isAvailable = Except.error e)
      ∨ (∃ k llm, env.getSecret = Except.ok (some k) ∧ k ≠ "" ∧
          env.constructClient k = Except.ok llm ∧
          llm.isAvailable = Except.ok true ∧ env.buttonPressed = true ∧
          pyStrip env.userPrompt ≠ "" ∧
          llm.generate env.userPrompt = Except.error e)) :
    (∃ shown, (main env).1 = preambleItems ++ shown
        ++ [RenderItem.error ("❌ Error initializing Groq LLM: " ++ e),
            RenderItem.markdown commonIssuesText]) ∧
    (∀ env2 : Env, ∃ rest, (main env2).1 = preambleItems ++ rest) := by
  constructor
  · rcases h with hk | ⟨k, hk, hne, hc⟩ | ⟨k, llm, hk, hne, hc, ha⟩ |
      ⟨k, llm, hk, hne, hc, ha, hbtn, hp, hg⟩
    · exact ⟨[], by simp [main, tryBody, hk]⟩
    · exact ⟨[], by simp [main, tryBody, hk, hne, hc]⟩
    · exact ⟨[], by simp [main, tryBody, hk, hne, hc, ha]⟩
    · exact ⟨successPathItems ++ [RenderItem.spinner "Generating response..."],
        by simp [main, tryBody, hk, hne, hc, ha, hbtn, hp, hg]⟩
  · intro env2
    cases h2 : (tryBody env2).exn with
    | none => exact ⟨(tryBody env2).items, by simp [main, h2]⟩
    | some e2 =>
      exact ⟨(tryBody env2).items
          ++ [RenderItem.error ("❌ Error initializing Groq LLM: " ++ e2),
              RenderItem.markdown commonIssuesText],
        by simp [main, h2]⟩

/-- Witness for claim C3: a secrets lookup that raises "boom" ends the
render with the generic error message and the troubleshooting list. -/
theorem exceptions_caught_top_level_witness :
    (∃ shown, (main { stubEnv with getSecret := Except.error "boom" }).1
        = preambleItems ++ shown
        ++ [RenderItem.error ("❌ Error initializing Groq LLM: " ++ "boom"),
            RenderItem.markdown commonIssuesText]) ∧
    (∀ env2 : Env, ∃ rest, (main env2).1 = preambleItems ++ rest) :=
  exceptions_caught_top_level { stubEnv with getSecret := Except.error "boom" }
    "boom" (Or.inl rfl)

/-- Claim C4: for every client whose generate returns a response, triggering
with a non-empty prompt renders the content text of the response and a
collapsible details region holding its model identifier, usage mapping and
metadata mapping. -/
theorem response_rendered_with_details (env : Env) (k : String) (llm : Client)
    (r : LLMResponse)
    (hk : env.getSecret = Except.ok (some k)) (hne : k ≠ "")
    (hc : env.constructClient k = Except.ok llm)
    (ha : llm.isAvailable = Except.ok true)
    (hbtn : env.buttonPressed = true)
    (hp : pyStrip env.userPrompt ≠ "")
    (hg : llm.generate env.userPrompt = Except.ok r) :
    RenderItem.write r.content ∈ (main env).1 ∧
    RenderItem.expanderJson r.model r.usage r.metadata ∈ (main env).1 := by
  simp [main, tryBody, hk, hne, hc, ha, hbtn, hp, hg, preambleItems,
    successPathItems, settingsAndCode]

/-- Witness for claim C4, the stub of the spec: generate on "Hi" answering
content "Hello", model "m1", usage tokens: 5 and empty metadata yields the
displayed content "Hello" and a details panel with "m1" and tokens: 5. -/
theorem response_rendered_with_details_witness :
    RenderItem.write "Hello" ∈ (main stubEnv).1 ∧
    RenderItem.expanderJson "m1" [("tokens", 5)] [] ∈ (main stubEnv).1 :=
  response_rendered_with_details stubEnv "gsk_test_key" okClient
    { content := "Hello", model := "m1", usage := [("tokens", 5)], metadata := [] }
    rfl (by decide) rfl rfl rfl (by decide) rfl

/-- Claim C5: for every client whose availability probe returns false, the
page (with a present non-empty key) renders exactly the preamble plus the
unavailable error and stops: no success indicator, no interactive control
(text area, button, slider) and no generate call occur in that render. -/
theorem unavailable_client_stops_render (env : Env) (k : String) (llm : Client)
    (hk : env.getSecret = Except.ok (some k)) (hne : k ≠ "")
    (hc : env.constructClient k = Except.ok llm)
    (ha : llm.isAvailable = Except.ok false) :
    (main env).1 = preambleItems
      ++ [RenderItem.error "❌ Groq LLM is not available"] ∧
    (main env).2 = [ClientCall.construct k, ClientCall.isAvailable] ∧
    (∀ s, RenderItem.success s ∉ (main env).1) ∧
    (∀ l d, RenderItem.textArea l d ∉ (main env).1) ∧
    (∀ l, RenderItem.button l ∉ (main env).1) ∧
    (∀ l lo hi d v, RenderItem.slider l lo hi d v ∉ (main env).1) ∧
    (∀ p, ClientCall.generate p ∉ (main env).2) := by
  simp [main, tryBody, hk, hne, hc, ha, preambleItems]

/-- Witness for claim C5: a client reporting unavailable stops the render at
the unavailable error. -/
theorem unavailable_client_stops_render_witness :
    (main { stubEnv with constructClient := fun _ => Except.ok unavailClient }).1
      = preambleItems ++ [RenderItem.error "❌ Groq LLM is not available"] ∧
    (main { stubEnv with constructClient := fun _ => Except.ok unavailClient }).2
      = [ClientCall.construct "gsk_test_key", ClientCall.isAvailable] ∧
    (∀ s, RenderItem.success s
      ∉ (main { stubEnv with constructClient := fun _ => Except.ok unavailClient }).1) ∧
    (∀ l d, RenderItem.textArea l d
      ∉ (main { stubEnv with constructClient := fun _ => Except.ok unavailClient }).1) ∧
    (∀ l, RenderItem.button l
      ∉ (main { stubEnv with constructClient := fun _ => Except.ok unavailClient }).1) ∧
    (∀ l lo hi d v, RenderItem.slider l lo hi d v
      ∉ (main { stubEnv with constructClient := fun _ => Except.ok unavailClient }).1) ∧
    (∀ p, ClientCall.generate p
      ∉ (main { stubEnv with constructClient := fun _ => Except.ok unavailClient }).2) :=
  unavailable_client_stops_render
    { stubEnv with constructClient := fun _ => Except.ok unavailClient }
    "gsk_test_key" unavailClient rfl (by decide) rfl rfl

/-- Claim C6: on every trigger activation with a non-empty prompt, the
generate operation is invoked with the prompt as its sole argument — the
call log records `generate` applied to the prompt string only — and the
slider positions have no influence on the client calls. -/
theorem sliders_not_forwarded_to_generate (env : Env) (k : String) (llm : Client)
    (hk : env.getSecret = Except.ok (some k)) (hne : k ≠ "")
    (hc : env.constructClient k = Except.ok llm)
    (ha : llm.isAvailable = Except.ok true)
    (hbtn : env.buttonPressed = true)
    (hp : pyStrip env.userPrompt ≠ "") :
    (main env).2 = [ClientCall.construct k, ClientCall.isAvailable,
      ClientCall.generate env.userPrompt] ∧
    (∀ t m, (main { env with temperatureChoice := t, maxTokensChoice := m }).2
      = (main env).2) := by
  constructor
  · cases hg : llm.generate env.userPrompt with
    | error e => simp [main, tryBody, hk, hne, hc, ha, hbtn, hp, hg]
    | ok r => simp [main, tryBody, hk, hne, hc, ha, hbtn, hp, hg]
  · intro t m
    exact calls_ignore_slider_choices env t m

/-- Witness for claim C6: with prompt "Hi", the call log is exactly
construction, the availability check, and generate on "Hi", whatever the
slider positions. -/
theorem sliders_not_forwarded_to_generate_witness :
    (main stubEnv).2 = [ClientCall.construct "gsk_test_key",
      ClientCall.isAvailable, ClientCall.generate "Hi"] ∧
    (∀ t m, (main { stubEnv with temperatureChoice := t, maxTokensChoice := m }).2
      = (main stubEnv).2) :=
  sliders_not_forwarded_to_generate stubEnv "gsk_test_key" okClient rfl
    (by decide) rfl rfl rfl (by decide)

/-- Claim C7: in every render pass where the trigger button is not pressed,
no generate call is issued; every client call of such a pass is either the
construction of the handle or the availability check. -/
theorem no_press_no_generate (env : Env)
    (hbtn : env.buttonPressed = false) :
    (∀ p, ClientCall.generate p ∉ (main env).2) ∧
    ((main env).2 = []
      ∨ (∃ s, (main env).2 = [ClientCall.construct s])
      ∨ (∃ s, (main env).2 = [ClientCall.construct s, ClientCall.isAvailable])) := by
  cases hsec : env.getSecret with
  | error e => simp [main, tryBody, hsec]
  | ok keyOpt =>
    by_cases hkey : keyOpt.getD "" = ""
    · simp [main, tryBody, hsec, hkey]
    · cases hc : env.constructClient (keyOpt.getD "") with
      | error e => simp [main, tryBody, hsec, hkey, hc]
      | ok llm =>
        cases ha : llm.isAvailable with
        | error e => simp [main, tryBody, hsec, hkey, hc, ha]
        | ok avail =>
          cases avail with
          | false => simp [main, tryBody, hsec, hkey, hc, ha]
          | true => simp [main, tryBody, hsec, hkey, hc, ha, hbtn]

/-- Witness for claim C7: rendering with the button unpressed issues no
generate call. -/
theorem no_press_no_generate_witness :
    (∀ p, ClientCall.generate p
      ∉ (main { stubEnv with buttonPressed := false }).2) ∧
    ((main { stubEnv with buttonPressed := false }).2 = []
      ∨ (∃ s, (main { stubEnv with buttonPressed := false }).2
          = [ClientCall.construct s])
      ∨ (∃ s, (main { stubEnv with buttonPressed := false }).2
          = [ClientCall.construct s, ClientCall.isAvailable])) :=
  no_press_no_generate { stubEnv with buttonPressed := false } rfl

/-- Claim C8: every temperature slider element a render can contain carries
bounds 0–10 tenths (0.0–1.0) with default 3 tenths (0.3) and a value within
those bounds, and every max-tokens slider element carries bounds 50–1000
with default 500 and a value within those bounds.  Temperatures are in
exact tenths because the slider step is 0.1. -/
theorem slider_values_within_bounds :
    (∀ (env : Env) (lab : String) (lo hi d v : Int),
      RenderItem.slider lab lo hi d v ∈ (main env).1 →
        lab = "Temperature" ∧ lo = 0 ∧ hi = 10 ∧ d = 3 ∧ 0 ≤ v ∧ v ≤ 10) ∧
    (∀ (env : Env) (lab : String) (lo hi d v : Int),
      RenderItem.sliderInt lab lo hi d v ∈ (main env).1 →
        lab = "Max Tokens" ∧ lo = 50 ∧ hi = 1000 ∧ d = 500 ∧
          50 ≤ v ∧ v ≤ 1000) := by
  constructor
  · intro env lab lo hi d v h
    obtain ⟨h1, h2, h3, h4, h5⟩ := slider_mem_main_eq env lab lo hi d v h
    subst h5
    exact ⟨h1, h2, h3, h4, (temperatureValue_bounds _).1,
      (temperatureValue_bounds _).2⟩
  · intro env lab lo hi d v h
    obtain ⟨h1, h2, h3, h4, h5⟩ := sliderInt_mem_main_eq env lab lo hi d v h
    subst h5
    exact ⟨h1, h2, h3, h4, (maxTokensValue_bounds _).1,
      (maxTokensValue_bounds _).2⟩

/-- Witness for claim C8: a successful render with untouched sliders shows
the temperature slider at its default 3 tenths and the max-tokens slider at
its default 500, both within bounds. -/
theorem slider_values_within_bounds_witness :
    (RenderItem.slider "Temperature" 0 10 3 3
        ∈ (main { stubEnv with buttonPressed := false }).1) ∧
    ("Temperature" = "Temperature" ∧ (0 : Int) = 0 ∧ (10 : Int) = 10 ∧
      (3 : Int) = 3 ∧ (0 : Int) ≤ 3 ∧ (3 : Int) ≤ 10) ∧
    (RenderItem.sliderInt "Max Tokens" 50 1000 500 500
        ∈ (main { stubEnv with buttonPressed := false }).1) ∧
    ("Max Tokens" = "Max Tokens" ∧ (50 : Int) = 50 ∧ (1000 : Int) = 1000 ∧
      (500 : Int) = 500 ∧ (50 : Int) ≤ 500 ∧ (500 : Int) ≤ 1000) :=
  ⟨by decide,
   slider_values_within_bounds.1 { stubEnv with buttonPressed := false }
     "Temperature" 0 10 3 3 (by decide),
   by decide,
   slider_values_within_bounds.2 { stubEnv with buttonPressed := false }
     "Max Tokens" 50 1000 500 500 (by decide)⟩

/-- Claim C9: whitespace trimming is used only for the emptiness test — for
every prompt that is non-empty after trimming, the string passed to the
generate operation is the exact user-entered text; no other string (in
particular not the trimmed one, when it differs) is ever passed. -/
theorem prompt_forwarded_untrimmed (env : Env) (k : String) (llm : Client)
    (hk : env.getSecret = Except.ok (some k)) (hne : k ≠ "")
    (hc : env.constructClient k = Except.ok llm)
    (ha : llm.isAvailable = Except.ok true)
    (hbtn : env.buttonPressed = true)
    (hp : pyStrip env.userPrompt ≠ "") :
    ClientCall.generate env.userPrompt ∈ (main env).2 ∧
    (∀ q, q ≠ env.userPrompt → ClientCall.generate q ∉ (main env).2) := by
  cases hg : llm.generate env.userPrompt with
  | error e =>
    constructor
    · simp [main, tryBody, hk, hne, hc, ha, hbtn, hp, hg]
    · intro q hq
      simp [main, tryBody, hk, hne, hc, ha, hbtn, hp, hg, hq]
  | ok r =>
    constructor
    · simp [main, tryBody, hk, hne, hc, ha, hbtn, hp, hg]
    · intro q hq
      simp [main, tryBody, hk, hne, hc, ha, hbtn, hp, hg, hq]

/-- Witness for claim C9: the prompt "  Hi  " (whitespace around "Hi") is
forwarded untrimmed — generate is called on "  Hi  " and never on "Hi". -/
theorem prompt_forwarded_untrimmed_witness :
    ClientCall.generate "  Hi  "
      ∈ (main { stubEnv with userPrompt := "  Hi  " }).2 ∧
    ClientCall.generate "Hi"
      ∉ (main { stubEnv with userPrompt := "  Hi  " }).2 :=
  ⟨(prompt_forwarded_untrimmed { stubEnv with userPrompt := "  Hi  " }
      "gsk_test_key" okClient rfl (by decide) rfl rfl rfl (by decide)).1,
   (prompt_forwarded_untrimmed { stubEnv with userPrompt := "  Hi  " }
      "gsk_test_key" okClient rfl (by decide) rfl rfl rfl (by decide)).2
     "Hi" (by decide)⟩

/-- Claim C10: the API key value is used only to construct the client
handle and never reaches the rendered output — two renders differing only
in the (non-empty) key value, with identically behaving constructed
clients, produce identical page output. -/
theorem api_key_noninterference (env : Env) (k1 k2 : String)
    (h1 : k1 ≠ "") (h2 : k2 ≠ "")
    (hcc : env.constructClient k1 = env.constructClient k2) :
    (main { env with getSecret := Except.ok (some k1) }).1
      = (main { env with getSecret := Except.ok (some k2) }).1 := by
  cases hc : env.constructClient k1 with
  | error e =>
    have hc2 : env.constructClient k2 = Except.error e := by rw [← hcc, hc]
    simp [main, tryBody, settingsAndCode, h1, h2, hc, hc2]
  | ok llm =>
    have hc2 : env.constructClient k2 = Except.ok llm := by rw [← hcc, hc]
    cases ha : llm.isAvailable with
    | error e => simp [main, tryBody, settingsAndCode, h1, h2, hc, hc2, ha]
    | ok avail =>
      cases avail with
      | false => simp [main, tryBody, settingsAndCode, h1, h2, hc, hc2, ha]
      | true =>
        cases hbtn : env.buttonPressed with
        | false => simp [main, tryBody, settingsAndCode, h1, h2, hc, hc2, ha, hbtn]
        | true =>
          by_cases hp : pyStrip env.userPrompt = ""
          · simp [main, tryBody, settingsAndCode, h1, h2, hc, hc2, ha, hbtn, hp]
          · cases hg : llm.generate env.userPrompt with
            | error e =>
              simp [main, tryBody, settingsAndCode, h1, h2, hc, hc2, ha, hbtn,
                hp, hg]
            | ok r =>
              simp [main, tryBody, settingsAndCode, h1, h2, hc, hc2, ha, hbtn,
                hp, hg]

/-- Witness for claim C10: the keys "keyA" and "keyB", paired with the same
client behaviour, render identical pages. -/
theorem api_key_noninterference_witness :
    (main { stubEnv with getSecret := Except.ok (some "keyA") }).1
      = (main { stubEnv with getSecret := Except.ok (some "keyB") }).1 :=
  api_key_noninterference stubEnv "keyA" "keyB" (by decide) (by decide) rfl

end GroqDemo
